import Mathlib

/-!
Shallow embedding of the predictive-search controller in
`src/assets/enhanced-search.js` (class `EnhancedPredictiveSearch`), together
with theorems checking the repository's specification against it.

The DOM is modelled by an inductive tree of element and text nodes; the
controller's mutable fields and visible panels are a record `SearchState`;
the asynchronous fetch is split into its synchronous dispatch (`issueFetch`,
recorded in a trace of issued request URLs) and the later settlement of the
response (`settleFetch`), which either renders (`displayResults`) or runs
the catch block.  Thrown JavaScript exceptions (member access on a missing
field) are modelled by a Boolean "threw" flag threaded next to the state, so
that partial DOM mutation before a throw is kept, exactly as in the browser.
-/

/-- A DOM node: an element with a tag, an attribute list and children, or a
text node.  `textContent = s` and `createTextNode(s)` both produce `text s`,
which the browser never parses as markup. -/
inductive Node where
  | elem (tag : String) (attrs : List (String × String)) (children : List Node)
  | text (s : String)

/-- A `featured_image` object of a suggestion result: its `url` field may be
absent. -/
structure Image where
  url : Option String

/-- A product record of the suggestion response; `featured_image` may be
absent (the code reads it with `?.`). -/
structure Product where
  title : String
  url : String
  featured_image : Option Image
  price : Nat

/-- A collection record of the suggestion response; `products_count` may be
absent (the code reads `collection.products_count || 0`). -/
structure Collection where
  title : String
  url : String
  featured_image : Option Image
  products_count : Option Nat

/-- An article record of the suggestion response; `summary` may be absent
(the code reads `article.summary || ''`). -/
structure Article where
  title : String
  url : String
  summary : Option String

/-- The `resources.results` object: each category array may be absent from
the JSON envelope. -/
structure ResultSets where
  products : Option (List Product)
  collections : Option (List Collection)
  articles : Option (List Article)

/-- The `resources` object of the envelope. -/
structure ResourcesEnvelope where
  results : Option ResultSets

/-- The parsed JSON envelope `data`; `data.resources` may be absent. -/
structure SearchData where
  resources : Option ResourcesEnvelope

/-- An envelope in which all three category arrays are present. -/
def mkData (ps : List Product) (cs : List Collection) (as_ : List Article) :
    SearchData :=
  ⟨some ⟨some ⟨some ps, some cs, some as_⟩⟩⟩

/-- UTF-8 bytes of a character, as numbers below 256. -/
def utf8Bytes (c : Char) : List Nat :=
  let n := c.toNat
  if n < 0x80 then [n]
  else if n < 0x800 then [0xC0 + n / 0x40, 0x80 + n % 0x40]
  else if n < 0x10000 then
    [0xE0 + n / 0x1000, 0x80 + (n / 0x40) % 0x40, 0x80 + n % 0x40]
  else
    [0xF0 + n / 0x40000, 0x80 + (n / 0x1000) % 0x40,
     0x80 + (n / 0x40) % 0x40, 0x80 + n % 0x40]

/-- Uppercase hexadecimal digit for `n < 16`. -/
def hexDigitChar (n : Nat) : Char :=
  if n < 10 then Char.ofNat (48 + n) else Char.ofNat (55 + n)

/-- `%HH` percent-encoding of one byte. -/
def percentEncodeByte (b : Nat) : List Char :=
  ['%', hexDigitChar (b / 16), hexDigitChar (b % 16)]

/-- Characters JavaScript `encodeURIComponent` leaves unencoded:
`A-Z a-z 0-9 - _ . ! ~ * ' ( )`. -/
def isUnreservedURIChar (c : Char) : Bool :=
  c.isAlpha || c.isDigit ||
  c.toNat == 45 || c.toNat == 95 || c.toNat == 46 || c.toNat == 33 ||
  c.toNat == 126 || c.toNat == 42 || c.toNat == 39 || c.toNat == 40 ||
  c.toNat == 41

/-- JavaScript `encodeURIComponent`: percent-encodes the UTF-8 bytes of
every character outside the unreserved set. -/
def encodeURIComponent (s : String) : String :=
  String.mk (s.data.foldr
    (fun c acc =>
      if isUnreservedURIChar c then c :: acc
      else (utf8Bytes c).foldr (fun b acc2 => percentEncodeByte b ++ acc2) acc)
    [])

/-- Two-digit rendering of the cents part. -/
def twoDigits (n : Nat) : String :=
  if n < 10 then "0" ++ toString n else toString n

/-- Insert a comma before every third digit, consuming the reversed digit
list; `i` counts digits already emitted. -/
def commaRev : List Char → Nat → List Char
  | [], _ => []
  | c :: cs, i =>
    if 0 < i && i % 3 == 0 then ',' :: c :: commaRev cs (i + 1)
    else c :: commaRev cs (i + 1)

/-- Decimal rendering of `n` with thousands separators, as the `en-US`
number format produces. -/
def groupThousands (n : Nat) : String :=
  String.mk (commaRev (toString n).data.reverse 0).reverse

/-- `formatPrice(price)`: `Intl.NumberFormat('en-US', currency USD)` applied
to `price / 100`, for a price in integer cents. -/
def formatPrice (price : Nat) : String :=
  "$" ++ groupThousands (price / 100) ++ "." ++ twoDigits (price % 100)

/-- The URL built by `fetchSearchResults` for a query. -/
def suggestUrl (query : String) : String :=
  "/search/suggest.json?q=" ++ encodeURIComponent query ++
    "&resources[type]=product,collection,article&resources[limit]=8"

/-- One product item of `renderProducts`'s `forEach` body: an anchor holding
the image (its `src` falls back to `''` when `featured_image?.url` is
absent, its `alt` is the title) and a content block whose title `h4` and
price line are filled with `textContent`. -/
def renderProductItem (product : Product) : Node :=
  .elem "a" [("href", product.url), ("class", "search-product-item")]
    [ .elem "div" [("class", "search-product-image")]
        [ .elem "img"
            [("src", ((product.featured_image.bind Image.url).getD "")),
             ("alt", product.title), ("loading", "lazy")] [] ],
      .elem "div" [("class", "search-product-content")]
        [ .elem "h4" [("class", "search-product-title")] [.text product.title],
          .elem "div" [("class", "search-product-price")]
            [.text (formatPrice product.price)] ] ]

/-- `renderProducts(products)`: a section with a "Products" header and one
item per product. -/
def renderProducts (products : List Product) : Node :=
  .elem "div" [("class", "search-section")]
    [ .elem "h3" [("class", "search-section-title")] [.text "Products"],
      .elem "div" [("class", "search-products")]
        (products.map renderProductItem) ]

/-- One collection item of `renderCollections`'s `forEach` body; the count
line reads `collection.products_count || 0`. -/
def renderCollectionItem (collection : Collection) : Node :=
  .elem "a" [("href", collection.url), ("class", "search-collection-item")]
    [ .elem "div" [("class", "search-collection-image")]
        [ .elem "img"
            [("src", ((collection.featured_image.bind Image.url).getD "")),
             ("alt", collection.title), ("loading", "lazy")] [] ],
      .elem "div" [("class", "search-collection-content")]
        [ .elem "h4" [("class", "search-collection-title")]
            [.text collection.title],
          .elem "p" [("class", "search-collection-count")]
            [.text (toString (collection.products_count.getD 0) ++ " products")] ] ]

/-- `renderCollections(collections)`. -/
def renderCollections (collections : List Collection) : Node :=
  .elem "div" [("class", "search-section")]
    [ .elem "h3" [("class", "search-section-title")] [.text "Collections"],
      .elem "div" [("class", "search-collections")]
        (collections.map renderCollectionItem) ]

/-- One article item of `renderArticles`'s `forEach` body; the summary reads
`article.summary || ''`. -/
def renderArticleItem (article : Article) : Node :=
  .elem "a" [("href", article.url), ("class", "search-article-item")]
    [ .elem "h4" [("class", "search-article-title")] [.text article.title],
      .elem "p" [("class", "search-article-summary")]
        [.text (article.summary.getD "")] ]

/-- `renderArticles(articles)`. -/
def renderArticles (articles : List Article) : Node :=
  .elem "div" [("class", "search-section")]
    [ .elem "h3" [("class", "search-section-title")] [.text "Articles"],
      .elem "div" [("class", "search-articles")]
        (articles.map renderArticleItem) ]

/-- `renderNoResults(query)`. -/
def renderNoResults (query : String) : Node :=
  .elem "div" [("class", "search-no-results")]
    [ .elem "h3" [] [.text ("No results found for \"" ++ query ++ "\"")],
      .elem "p" []
        [.text "Try searching for something else or browse our collections"],
      .elem "div" [("class", "search-suggestions-fallback")]
        [ .elem "a" [("href", "/collections"), ("class", "btn btn--secondary")]
            [.text "Browse Collections"] ] ]

/-- The node `addViewAllLink(query)` appends to the content container. -/
def viewAllLinkNode (query : String) : Node :=
  .elem "div" [("class", "search-view-all")]
    [ .elem "a"
        [("href", "/search?q=" ++ encodeURIComponent query),
         ("class", "search-view-all-link")]
        [.text ("View all results for \"" ++ query ++ "\" →")] ]

/-- The spinner markup `showLoading` assigns via `innerHTML`. -/
def loadingNode : Node :=
  .elem "div" [("class", "search-loading")]
    [ .elem "div" [("class", "search-loading-spinner")] [],
      .elem "p" [] [.text "Searching..."] ]

mutual

/-- Number of elements in a node's tree carrying a given `class` attribute
value. -/
def countClass (cls : String) : Node → Nat
  | .text _ => 0
  | .elem _ attrs children =>
    (if ("class", cls) ∈ attrs then 1 else 0) + countClassList cls children

/-- `countClass` summed over a child list. -/
def countClassList (cls : String) : List Node → Nat
  | [] => 0
  | n :: ns => countClass cls n + countClassList cls ns

end

mutual

/-- Whether every element tag in a node's tree belongs to `allowed`. -/
def tagsAllowed (allowed : List String) : Node → Bool
  | .text _ => true
  | .elem tag _ children =>
    allowed.contains tag && tagsAllowedList allowed children

/-- `tagsAllowed` over a child list. -/
def tagsAllowedList (allowed : List String) : List Node → Bool
  | [] => true
  | n :: ns => tagsAllowed allowed n && tagsAllowedList allowed ns

end

mutual

/-- Whether a node's tree contains the literal text node `text s`. -/
def hasTextNode (s : String) : Node → Bool
  | .text t => t == s
  | .elem _ _ children => hasTextNodeList s children

/-- `hasTextNode` over a child list. -/
def hasTextNodeList (s : String) : List Node → Bool
  | [] => false
  | n :: ns => hasTextNode s n || hasTextNodeList s ns

end

mutual

/-- Whether some element in a node's tree carries the attribute pair `a`. -/
def hasAttr (a : String × String) : Node → Bool
  | .text _ => false
  | .elem _ attrs children => attrs.contains a || hasAttrList a children

/-- `hasAttr` over a child list. -/
def hasAttrList (a : String × String) : List Node → Bool
  | [] => false
  | n :: ns => hasAttr a n || hasAttrList a ns

end

/-- The element tags the renderers create, all fixed string literals in the
source. -/
def rendererTags : List String := ["div", "h3", "h4", "a", "img", "p"]

/-- The controller's mutable fields and the observable DOM/network effects:
`currentQuery` and `searchHistory` are instance fields; `storedHistory` is
the `localStorage` value behind the `searchHistory` key; the three Booleans
are the display of `[data-search-suggestions]`, of `[data-search-content]`,
and the `predictive-search-results--show` class on the container;
`contentChildren` is the child list of `[data-search-content]`; `fetches`
is the trace of request URLs handed to `fetch`; `errorsLogged` counts
`console.error` calls. -/
structure SearchState where
  currentQuery : String
  searchHistory : List String
  storedHistory : List String
  suggestionsVisible : Bool
  contentVisible : Bool
  panelShown : Bool
  contentChildren : List Node
  fetches : List String
  errorsLogged : Nat

/-- The state right after the constructor ran: `currentQuery` is `''` and
the history is parsed from the stored value. -/
def initState (stored : List String) : SearchState :=
  { currentQuery := ""
    searchHistory := stored
    storedHistory := stored
    suggestionsVisible := true
    contentVisible := false
    panelShown := false
    contentChildren := []
    fetches := []
    errorsLogged := 0 }

/-- `showSuggestions()`: suggestion block shown, content block hidden,
container given the show class. -/
def showSuggestions (st : SearchState) : SearchState :=
  { st with suggestionsVisible := true, contentVisible := false,
            panelShown := true }

/-- `showResults()`: suggestion block hidden, content block shown, container
given the show class. -/
def showResults (st : SearchState) : SearchState :=
  { st with suggestionsVisible := false, contentVisible := true,
            panelShown := true }

/-- `showLoading()`: replaces the content with the spinner markup, then
`showResults()`. -/
def showLoading (st : SearchState) : SearchState :=
  showResults { st with contentChildren := [loadingNode] }

/-- `hideResults()`: removes the show class and resets `currentQuery` to
`''`. -/
def hideResults (st : SearchState) : SearchState :=
  { st with panelShown := false, currentQuery := "" }

/-- The synchronous prefix of `fetchSearchResults`: build the URL and hand
it to `fetch` (recorded in the trace); the response is processed later by
`settleFetch`. -/
def issueFetch (query : String) (st : SearchState) : SearchState :=
  { st with fetches := st.fetches ++ [suggestUrl query] }

/-- `addViewAllLink(query)`: appends the view-all node to the content
container. -/
def addViewAllLink (query : String) (st : SearchState) : SearchState :=
  { st with contentChildren := st.contentChildren ++ [viewAllLinkNode query] }

/-- `displayResults(data, query)`.  Returns the state paired with `true`
when a member access threw (`.results` of a missing `resources`, or
`.length` of a missing category array); the state at that point keeps any
sections already appended, exactly as the real DOM does, and the exception
propagates to `fetchSearchResults`'s catch. -/
def displayResults (data : SearchData) (query : String) (st : SearchState) :
    SearchState × Bool :=
  let st0 := { st with contentChildren := [] }
  match data.resources with
  | none => (st0, true)
  | some resources =>
    match resources.results with
    | none => (st0, true)
    | some results =>
      match results.products with
      | none => (st0, true)
      | some products =>
        let st1 :=
          if products.length > 0 then
            { st0 with contentChildren :=
                st0.contentChildren ++ [renderProducts products] }
          else st0
        match results.collections with
        | none => (st1, true)
        | some collections =>
          let st2 :=
            if collections.length > 0 then
              { st1 with contentChildren :=
                  st1.contentChildren ++ [renderCollections collections] }
            else st1
          match results.articles with
          | none => (st2, true)
          | some articles =>
            let st3 :=
              if articles.length > 0 then
                { st2 with contentChildren :=
                    st2.contentChildren ++ [renderArticles articles] }
              else st2
            let hasResults :=
              products.length > 0 ∨ collections.length > 0 ∨
                articles.length > 0
            let st4 :=
              if hasResults then st3
              else { st3 with contentChildren :=
                       st3.contentChildren ++ [renderNoResults query] }
            (addViewAllLink query (showResults st4), false)

/-- How a settled fetch is observed: either the parsed envelope, or a
network/JSON-parse failure rejecting the awaited promise. -/
inductive FetchOutcome where
  | success (data : SearchData)
  | failure

/-- The rest of `fetchSearchResults` once the response settles: on success
run `displayResults`; any exception (rejection or a throw inside
`displayResults`) reaches the catch block, which logs the error and calls
`hideResults`. -/
def settleFetch (query : String) (outcome : FetchOutcome)
    (st : SearchState) : SearchState :=
  match outcome with
  | .success data =>
    match displayResults data query st with
    | (st2, false) => st2
    | (st2, true) => hideResults { st2 with errorsLogged := st2.errorsLogged + 1 }
  | .failure => hideResults { st with errorsLogged := st.errorsLogged + 1 }

/-- `handleSearch(query)` (the argument is already trimmed by the input
handler): short queries show the suggestion panel; a query equal to
`currentQuery` returns at once; otherwise record the query, show the
loading state and issue the fetch. -/
def handleSearch (query : String) (st : SearchState) : SearchState :=
  if query.length < 2 then showSuggestions st
  else if query = st.currentQuery then st
  else issueFetch query (showLoading { st with currentQuery := query })

/-- `addToSearchHistory(query)`: filter out equal entries, `unshift`,
`slice(0, 10)`, persist to `localStorage`. -/
def addToSearchHistory (query : String) (st : SearchState) : SearchState :=
  let h := st.searchHistory.filter (fun term => term != query)
  let h2 := query :: h
  let h3 := h2.take 10
  { st with searchHistory := h3, storedHistory := h3 }

/-- The document-level click handler when the click target is outside
`[data-search-container]`: calls `hideResults()`. -/
def onClickOutsideSearchContainer (st : SearchState) : SearchState :=
  hideResults st

/-- The content child list `displayResults` leaves behind for an envelope
whose three category arrays are present (pure function of the response and
the query). -/
def renderedContent (ps : List Product) (cs : List Collection)
    (as_ : List Article) (query : String) : List Node :=
  ((if ps.length > 0 then [renderProducts ps] else []) ++
   (if cs.length > 0 then [renderCollections cs] else []) ++
   (if as_.length > 0 then [renderArticles as_] else []) ++
   (if ps.length > 0 ∨ cs.length > 0 ∨ as_.length > 0 then []
    else [renderNoResults query])) ++
  [viewAllLinkNode query]

/-- An envelope in which `resources` and `results` are present but all three
category arrays are absent. -/
def absentArraysData : SearchData := ⟨some ⟨some ⟨none, none, none⟩⟩⟩

/-- The markup-significant title from the spec's injection example. -/
def xssTitle : String := "<img src=x onerror=alert(1)>"

/-- A product whose title is attacker-controlled markup and whose
`featured_image` is absent. -/
def sampleProduct : Product := ⟨xssTitle, "/products/shoe", none, 2500⟩

/-- A collection whose title is attacker-controlled markup and whose
`products_count` is absent. -/
def sampleCollection : Collection := ⟨xssTitle, "/collections/all", none, none⟩

/-- An article whose title is attacker-controlled markup. -/
def sampleArticle : Article := ⟨xssTitle, "/blogs/news/first", none⟩

/-- A state in which results are currently shown for the query `"ab"`. -/
def shownState : SearchState := { initState [] with currentQuery := "ab" }

theorem hasTextNodeList_map {α : Type} (f : α → Node) (s : String)
    (l : List α) (x : α) (hx : x ∈ l) (h : hasTextNode s (f x) = true) :
    hasTextNodeList s (l.map f) = true := by
  induction l with
  | nil => cases hx
  | cons y ys ih =>
    simp only [List.map_cons, hasTextNodeList, Bool.or_eq_true]
    rcases List.mem_cons.mp hx with h1 | h2
    · exact Or.inl (h1 ▸ h)
    · exact Or.inr (ih h2)

theorem tagsAllowedList_map {α : Type} (f : α → Node) (allowed : List String)
    (l : List α) (h : ∀ x, tagsAllowed allowed (f x) = true) :
    tagsAllowedList allowed (l.map f) = true := by
  induction l with
  | nil => rfl
  | cons y ys ih =>
    simp only [List.map_cons, tagsAllowedList, Bool.and_eq_true]
    exact ⟨h y, ih⟩

theorem tagsAllowed_renderProducts (products : List Product) :
    tagsAllowed rendererTags (renderProducts products) = true := by
  have hmap : tagsAllowedList rendererTags
      (products.map renderProductItem) = true :=
    tagsAllowedList_map renderProductItem rendererTags products
      (fun x => by
        simp [renderProductItem, tagsAllowed, tagsAllowedList, rendererTags])
  simp [renderProducts, tagsAllowed, tagsAllowedList, hmap]
  all_goals decide

theorem tagsAllowed_renderCollections (collections : List Collection) :
    tagsAllowed rendererTags (renderCollections collections) = true := by
  have hmap : tagsAllowedList rendererTags
      (collections.map renderCollectionItem) = true :=
    tagsAllowedList_map renderCollectionItem rendererTags collections
      (fun x => by
        simp [renderCollectionItem, tagsAllowed, tagsAllowedList, rendererTags])
  simp [renderCollections, tagsAllowed, tagsAllowedList, hmap]
  all_goals decide

theorem tagsAllowed_renderArticles (articles : List Article) :
    tagsAllowed rendererTags (renderArticles articles) = true := by
  have hmap : tagsAllowedList rendererTags
      (articles.map renderArticleItem) = true :=
    tagsAllowedList_map renderArticleItem rendererTags articles
      (fun x => by
        simp [renderArticleItem, tagsAllowed, tagsAllowedList, rendererTags])
  simp [renderArticles, tagsAllowed, tagsAllowedList, hmap]
  all_goals decide

/-- C1: every result record's title is inserted by the renderers as a
literal text node of the tree, and every element of the rendered tree has
one of the six fixed literal tags — so a markup-significant title is inert
text and never becomes an element. -/
theorem titles_inserted_as_inert_text (products : List Product)
    (collections : List Collection) (articles : List Article)
    (p : Product) (c : Collection) (a : Article)
    (hp : p ∈ products) (hc : c ∈ collections) (ha : a ∈ articles) :
    hasTextNode p.title (renderProducts products) = true ∧
    hasTextNode c.title (renderCollections collections) = true ∧
    hasTextNode a.title (renderArticles articles) = true ∧
    tagsAllowed rendererTags (renderProducts products) = true ∧
    tagsAllowed rendererTags (renderCollections collections) = true ∧
    tagsAllowed rendererTags (renderArticles articles) = true := by
  refine ⟨?_, ?_, ?_, tagsAllowed_renderProducts products,
          tagsAllowed_renderCollections collections,
          tagsAllowed_renderArticles articles⟩
  · have hx := hasTextNodeList_map renderProductItem p.title products p hp
      (by simp [renderProductItem, hasTextNode, hasTextNodeList])
    simp [renderProducts, hasTextNode, hasTextNodeList, hx]
  · have hx := hasTextNodeList_map renderCollectionItem c.title collections c hc
      (by simp [renderCollectionItem, hasTextNode, hasTextNodeList])
    simp [renderCollections, hasTextNode, hasTextNodeList, hx]
  · have hx := hasTextNodeList_map renderArticleItem a.title articles a ha
      (by simp [renderArticleItem, hasTextNode, hasTextNodeList])
    simp [renderArticles, hasTextNode, hasTextNodeList, hx]

/-- C1 witness: the spec's `<img src=x onerror=...>` title is rendered as an
inert text node in each of the three renderers. -/
theorem titles_inserted_as_inert_text_witness :
    hasTextNode sampleProduct.title (renderProducts [sampleProduct]) = true ∧
    hasTextNode sampleCollection.title
      (renderCollections [sampleCollection]) = true ∧
    hasTextNode sampleArticle.title (renderArticles [sampleArticle]) = true ∧
    tagsAllowed rendererTags (renderProducts [sampleProduct]) = true ∧
    tagsAllowed rendererTags (renderCollections [sampleCollection]) = true ∧
    tagsAllowed rendererTags (renderArticles [sampleArticle]) = true :=
  titles_inserted_as_inert_text [sampleProduct] [sampleCollection]
    [sampleArticle] sampleProduct sampleCollection sampleArticle
    (by simp) (by simp) (by simp)

/-- C2: `addToSearchHistory` filters out equal entries, prepends the query,
truncates to 10 and persists: afterwards the history has at most 10
entries, the query sits at index 0 exactly once, and the stored copy equals
the in-memory history. -/
theorem addToSearchHistory_bounded_dedup_persist (st : SearchState)
    (q : String) :
    ((addToSearchHistory q st).searchHistory).length ≤ 10 ∧
    ((addToSearchHistory q st).searchHistory).head? = some q ∧
    ((addToSearchHistory q st).searchHistory).count q = 1 ∧
    (addToSearchHistory q st).storedHistory =
      (addToSearchHistory q st).searchHistory := by
  refine ⟨?_, ?_, ?_, rfl⟩
  · simp [addToSearchHistory]
  · simp [addToSearchHistory, List.take_succ_cons]
  · simp [addToSearchHistory, List.take_succ_cons, List.count_cons_self]
    refine List.count_eq_zero.mpr ?_
    intro hmem
    have hmem2 := List.take_subset _ _ hmem
    have := (List.mem_filter.mp hmem2).2
    simp at this

/-- C3: a second consecutive `handleSearch` call with the identical string
of length at least 2 is a no-op: the state is unchanged and no further
fetch is issued. -/
theorem handleSearch_duplicate_query_noop (st : SearchState) (q : String)
    (h : 2 ≤ q.length) :
    handleSearch q (handleSearch q st) = handleSearch q st ∧
    (handleSearch q (handleSearch q st)).fetches =
      (handleSearch q st).fetches := by
  have hlt : ¬ q.length < 2 := by omega
  have hcur : (handleSearch q st).currentQuery = q := by
    by_cases hq : q = st.currentQuery
    · simp [handleSearch, hlt, ← hq]
    · simp [handleSearch, hlt, hq, issueFetch, showLoading, showResults]
  constructor
  · conv in handleSearch q (handleSearch q st) => rw [handleSearch]
    simp [hlt, hcur]
  · conv in handleSearch q (handleSearch q st) => rw [handleSearch]
    simp [hlt, hcur]

/-- C3 witness: calling `handleSearch` twice with `"ab"` from the initial
state leaves the state of the first call untouched. -/
theorem handleSearch_duplicate_query_noop_witness :
    handleSearch "ab" (handleSearch "ab" (initState [])) =
      handleSearch "ab" (initState []) ∧
    (handleSearch "ab" (handleSearch "ab" (initState []))).fetches =
      (handleSearch "ab" (initState [])).fetches :=
  handleSearch_duplicate_query_noop (initState []) "ab" (by decide)

/-- C4: for a trimmed query of length 0 or 1, `handleSearch` runs
`showSuggestions` and nothing else: no fetch is issued, the suggestion
block is visible and the result-content block is hidden. -/
theorem handleSearch_short_query_shows_suggestions (st : SearchState)
    (q : String) (h : q.length < 2) :
    handleSearch q st = showSuggestions st ∧
    (handleSearch q st).fetches = st.fetches ∧
    (handleSearch q st).suggestionsVisible = true ∧
    (handleSearch q st).contentVisible = false ∧
    (handleSearch q st).panelShown = true := by
  simp [handleSearch, h, showSuggestions]

/-- C4 witness: the empty query from the initial state shows suggestions
and issues no fetch. -/
theorem handleSearch_short_query_shows_suggestions_witness :
    handleSearch "" (initState []) = showSuggestions (initState []) ∧
    (handleSearch "" (initState [])).fetches = (initState []).fetches ∧
    (handleSearch "" (initState [])).suggestionsVisible = true ∧
    (handleSearch "" (initState [])).contentVisible = false ∧
    (handleSearch "" (initState [])).panelShown = true :=
  handleSearch_short_query_shows_suggestions (initState []) "" (by decide)

theorem displayResults_mkData (ps : List Product) (cs : List Collection)
    (as_ : List Article) (q : String) (st : SearchState) :
    displayResults (mkData ps cs as_) q st =
      ({ st with contentChildren := renderedContent ps cs as_ q,
                 suggestionsVisible := false, contentVisible := true,
                 panelShown := true }, false) := by
  by_cases hp : ps.length > 0 <;> by_cases hc : cs.length > 0 <;>
    by_cases ha : as_.length > 0 <;>
    simp [displayResults, mkData, renderedContent, addViewAllLink,
          showResults, hp, hc, ha]

theorem settleFetch_mkData (q : String) (ps : List Product)
    (cs : List Collection) (as_ : List Article) (st : SearchState) :
    settleFetch q (.success (mkData ps cs as_)) st =
      { st with contentChildren := renderedContent ps cs as_ q,
                suggestionsVisible := false, contentVisible := true,
                panelShown := true } := by
  simp [settleFetch, displayResults_mkData]

/-- C5 counterexample: for an envelope whose three category arrays are all
absent, the member access in `displayResults` throws, the catch hides the
panel, and the no-results placeholder is NOT rendered — the claim's
"no-results branch" is not taken. -/
theorem absent_arrays_not_no_results_branch_cex :
    (displayResults absentArraysData "boots" (initState [])).2 = true ∧
    countClassList "search-no-results"
      ((settleFetch "boots" (.success absentArraysData)
          (initState [])).contentChildren) = 0 ∧
    (settleFetch "boots" (.success absentArraysData)
        (initState [])).panelShown = false :=
  ⟨rfl, rfl, rfl⟩

/-- C5 amended: a missing `featured_image` renders an empty `src` and a
missing `products_count` renders "0 products" (defensive fallbacks), but
the category arrays are accessed without fallback: when all three are
absent, the access throws, the error path hides the panel and no
no-results placeholder is rendered; the no-results branch is taken when
the arrays are present and empty. -/
theorem defensive_fallbacks_and_absent_arrays_error (p : Product)
    (hp : p.featured_image = none) (c : Collection)
    (hc : c.products_count = none) (st : SearchState) (q : String) :
    hasAttr ("src", "") (renderProductItem p) = true ∧
    hasTextNode "0 products" (renderCollectionItem c) = true ∧
    (displayResults absentArraysData q st).2 = true ∧
    (settleFetch q (.success absentArraysData) st).panelShown = false ∧
    countClassList "search-no-results"
      ((settleFetch q (.success absentArraysData) st).contentChildren) = 0 ∧
    countClassList "search-no-results"
      ((displayResults (mkData [] [] []) q st).1.contentChildren) = 1 := by
  refine ⟨?_, ?_, ?_, ?_, ?_, ?_⟩
  · simp [renderProductItem, hasAttr, hasAttrList, hp]
  · simp [renderCollectionItem, hasTextNode, hasTextNodeList, hc]
    right
    rfl
  · simp [displayResults, absentArraysData]
  · simp [settleFetch, displayResults, absentArraysData, hideResults]
  · simp [settleFetch, displayResults, absentArraysData, hideResults,
          countClassList]
  · simp [displayResults_mkData, renderedContent, countClassList, countClass,
          renderNoResults, viewAllLinkNode]

/-- C5 witness: the amended behavior at a concrete product, collection,
state and query. -/
theorem defensive_fallbacks_and_absent_arrays_error_witness :
    hasAttr ("src", "") (renderProductItem sampleProduct) = true ∧
    hasTextNode "0 products" (renderCollectionItem sampleCollection) = true ∧
    (displayResults absentArraysData "sh" (initState [])).2 = true ∧
    (settleFetch "sh" (.success absentArraysData)
        (initState [])).panelShown = false ∧
    countClassList "search-no-results"
      ((settleFetch "sh" (.success absentArraysData)
          (initState [])).contentChildren) = 0 ∧
    countClassList "search-no-results"
      ((displayResults (mkData [] [] []) "sh"
          (initState [])).1.contentChildren) = 1 :=
  defensive_fallbacks_and_absent_arrays_error sampleProduct rfl
    sampleCollection rfl (initState []) "sh"

/-- C6 counterexample: a click outside the search container runs
`hideResults`, which resets `currentQuery` to `''` — the current-query
marker is NOT left unchanged. -/
theorem clickOutside_clears_currentQuery_cex :
    ¬ ((onClickOutsideSearchContainer
          { initState [] with currentQuery := "boots" }).currentQuery =
        ({ initState [] with currentQuery := "boots" }
          : SearchState).currentQuery) := by
  decide

/-- C6 amended: a click outside the search container collapses the result
panel and leaves the search history (in memory and persisted) and the
panel content unchanged, but resets the current-query marker to `''`. -/
theorem clickOutside_collapses_keeps_history (st : SearchState) :
    (onClickOutsideSearchContainer st).panelShown = false ∧
    (onClickOutsideSearchContainer st).searchHistory = st.searchHistory ∧
    (onClickOutsideSearchContainer st).storedHistory = st.storedHistory ∧
    (onClickOutsideSearchContainer st).currentQuery = "" ∧
    (onClickOutsideSearchContainer st).contentChildren = st.contentChildren := by
  simp [onClickOutsideSearchContainer, hideResults]

/-- C7: on a fetch failure the catch block hides the result panel, logs the
error once, renders nothing into the content (nothing surfaced to the
user) and issues no further fetch. -/
theorem fetch_failure_hidden_logged_no_retry (st : SearchState)
    (q : String) :
    (settleFetch q .failure st).panelShown = false ∧
    (settleFetch q .failure st).errorsLogged = st.errorsLogged + 1 ∧
    (settleFetch q .failure st).fetches = st.fetches ∧
    (settleFetch q .failure st).contentChildren = st.contentChildren ∧
    (settleFetch q .failure st).searchHistory = st.searchHistory := by
  simp [settleFetch, hideResults]

/-- C8: for two settled fetches, the one settling last overwrites the
result panel unconditionally: the final content is a pure function of the
last response and its query, independent of the earlier response and of
the current-query marker, which `displayResults` neither reads nor
changes. -/
theorem last_settled_response_overwrites_panel (st : SearchState)
    (qA qB : String) (dB : SearchData) (psA : List Product)
    (csA : List Collection) (asA : List Article) :
    (settleFetch qA (.success (mkData psA csA asA))
        (settleFetch qB (.success dB) st)).contentChildren =
      renderedContent psA csA asA qA ∧
    (settleFetch qA (.success (mkData psA csA asA))
        (settleFetch qB (.success dB) st)).contentVisible = true ∧
    (settleFetch qA (.success (mkData psA csA asA))
        (settleFetch qB (.success dB) st)).panelShown = true ∧
    (settleFetch qA (.success (mkData psA csA asA))
        (settleFetch qB (.success dB) st)).currentQuery =
      (settleFetch qB (.success dB) st).currentQuery := by
  simp [settleFetch_mkData]

/-- C9: when the three category arrays are present and empty, the rendered
content holds the no-results placeholder exactly once and no category
section header; and for every successfully rendered response the last
child is the view-all link for the query. -/
theorem empty_categories_no_results_once_with_view_all (st : SearchState)
    (q : String) :
    countClassList "search-no-results"
        ((displayResults (mkData [] [] []) q st).1.contentChildren) = 1 ∧
    countClassList "search-section-title"
        ((displayResults (mkData [] [] []) q st).1.contentChildren) = 0 ∧
    ((displayResults (mkData [] [] []) q st).1.contentChildren).getLast? =
      some (viewAllLinkNode q) ∧
    ∀ (ps : List Product) (cs : List Collection) (as_ : List Article)
      (q2 : String) (st2 : SearchState),
      ((displayResults (mkData ps cs as_) q2 st2).1.contentChildren).getLast? =
        some (viewAllLinkNode q2) := by
  refine ⟨?_, ?_, ?_, ?_⟩
  · simp [displayResults_mkData, renderedContent, countClassList, countClass,
          renderNoResults, viewAllLinkNode]
  · simp [displayResults_mkData, renderedContent, countClassList, countClass,
          renderNoResults, viewAllLinkNode]
  · simp [displayResults_mkData, renderedContent]
  · intro ps cs as_ q2 st2
    simp [displayResults_mkData, renderedContent]

/-- C10: `handleSearch` with a trimmed query of length 0 or 1 leaves the
current-query marker unchanged; hence after results were shown for `Q`,
clearing the input and retyping exactly `Q` is a no-op — no new fetch, and
the result-content block stays hidden. -/
theorem short_query_keeps_marker_and_retype_noop (st : SearchState)
    (Q : String) (h2 : 2 ≤ Q.length) (hcur : st.currentQuery = Q) :
    (∀ (q : String) (st2 : SearchState), q.length < 2 →
       (handleSearch q st2).currentQuery = st2.currentQuery) ∧
    handleSearch Q (handleSearch "" st) = handleSearch "" st ∧
    (handleSearch Q (handleSearch "" st)).fetches = st.fetches ∧
    (handleSearch Q (handleSearch "" st)).contentVisible = false := by
  have hlt : ¬ Q.length < 2 := by omega
  refine ⟨?_, ?_, ?_, ?_⟩
  · intro q st2 hq
    simp [handleSearch, hq, showSuggestions]
  · simp [handleSearch, hlt, showSuggestions, hcur]
  · simp [handleSearch, hlt, showSuggestions, hcur]
  · simp [handleSearch, hlt, showSuggestions, hcur]

/-- C10 witness: with results shown for `"ab"`, clearing and retyping
`"ab"` issues no fetch and keeps the result-content block hidden. -/
theorem short_query_keeps_marker_and_retype_noop_witness :
    (∀ (q : String) (st2 : SearchState), q.length < 2 →
       (handleSearch q st2).currentQuery = st2.currentQuery) ∧
    handleSearch "ab" (handleSearch "" shownState) =
      handleSearch "" shownState ∧
    (handleSearch "ab" (handleSearch "" shownState)).fetches =
      shownState.fetches ∧
    (handleSearch "ab" (handleSearch "" shownState)).contentVisible = false :=
  short_query_keeps_marker_and_retype_noop shownState "ab" (by decide) rfl
